import Mathlib

/-!
Shallow embedding of the giscus widget element (`src/web/src/giscus.ts`).

The widget is a custom element that embeds the giscus commenting iframe.
We model its pure core: the term resolver (`getTerm`, `getNumber`), the
iframe address builder (`getIframeSrc`), session setup (`setupSession`),
the window message handler (`handleMessageEvent`), and the
`requestUpdate` override as a step function on an explicit widget state.

Browser platform pieces (URL / URLSearchParams / JSON / localStorage)
are modelled explicitly: a page URL is a base string plus a list of query
parameters, storage is the optional value of the single `giscus-session`
key, and JSON encode/decode of the session token is implemented below.
-/

namespace Giscus

/-- Substring scan over character lists: does `pat` occur in `s`
(models JavaScript `String.prototype.includes`)? -/
def listHasInfix (pat : List Char) : List Char → Bool
  | [] => pat.isEmpty
  | c :: rest => pat.isPrefixOf (c :: rest) || listHasInfix pat rest

/-- `strContains s pat` models `s.includes(pat)` in JavaScript. -/
def strContains (s pat : String) : Bool :=
  listHasInfix pat.toList s.toList

/-! ### application/x-www-form-urlencoded serialization (URLSearchParams) -/

/-- Characters kept verbatim by `URLSearchParams` serialization. -/
def isFormSafeChar (c : Char) : Bool :=
  ('A' ≤ c && c ≤ 'Z') || ('a' ≤ c && c ≤ 'z') || ('0' ≤ c && c ≤ '9') ||
    c = '*' || c = '-' || c = '.' || c = '_'

/-- Upper-case hex digit for a value below 16. -/
def hexDigit (n : Nat) : Char :=
  if n < 10 then Char.ofNat ('0'.toNat + n) else Char.ofNat ('A'.toNat + n - 10)

/-- Percent-encode one byte as `%XY`. -/
def percentByte (b : Nat) : String :=
  String.mk ['%', hexDigit (b / 16), hexDigit (b % 16)]

/-- UTF-8 bytes of a code point. -/
def utf8Bytes (c : Char) : List Nat :=
  let n := c.toNat
  if n < 0x80 then [n]
  else if n < 0x800 then [0xC0 + n / 64, 0x80 + n % 64]
  else if n < 0x10000 then [0xE0 + n / 4096, 0x80 + (n / 64) % 64, 0x80 + n % 64]
  else [0xF0 + n / 262144, 0x80 + (n / 4096) % 64, 0x80 + (n / 64) % 64, 0x80 + n % 64]

/-- Encode one character the way `URLSearchParams` does: safe characters
verbatim, space as `+`, everything else percent-encoded per UTF-8 byte. -/
def encodeFormChar (c : Char) : String :=
  if isFormSafeChar c then String.singleton c
  else if c = ' ' then "+"
  else String.join ((utf8Bytes c).map percentByte)

/-- Percent-encode a full component. -/
def encodeFormComponent (s : String) : String :=
  String.join (s.toList.map encodeFormChar)

/-- Serialize a parameter list as `k1=v1&k2=v2&...` with percent-encoding,
in list (insertion) order; models `URLSearchParams.toString`. -/
def formUrlEncode (ps : List (String × String)) : String :=
  String.intercalate "&" (ps.map (fun p => encodeFormComponent p.1 ++ "=" ++ encodeFormComponent p.2))

/-! ### A model of the page URL (browser `URL` + `searchParams`) -/

/-- A page URL: everything before the query string, plus the ordered list
of query parameters. -/
structure PageUrl where
  base : String
  params : List (String × String)
  deriving Repr, DecidableEq

/-- `url.searchParams.get(k)`: the first value bound to `k`, if any. -/
def urlGetParam (u : PageUrl) (k : String) : Option String :=
  (u.params.find? (fun p => p.1 = k)).map Prod.snd

/-- `url.searchParams.delete(k)`: remove every binding of `k`. -/
def urlDeleteParam (u : PageUrl) (k : String) : PageUrl :=
  { u with params := u.params.filter (fun p => ¬(p.1 = k)) }

/-- `url.toString()`: the base plus the serialized query (the `?` is
dropped when no parameters remain). -/
def urlToString (u : PageUrl) : String :=
  u.base ++ (if u.params.isEmpty then "" else "?" ++ formUrlEncode u.params)

/-! ### Configuration and page state -/

/-- The discussion mapping modes (`type Mapping` in the source). -/
inductive Mapping
  | url
  | title
  | ogTitle
  | specific
  | number
  | pathname
  deriving Repr, DecidableEq

/-- The widget's reactive configuration properties, with the source's
defaults. `none` models an `undefined` optional property; `id` is the host
element's `id` attribute (used for the `origin` fragment). -/
structure Config where
  repo : String := ""
  repoId : Option String := none
  category : Option String := none
  categoryId : Option String := none
  mapping : Option Mapping := none
  term : Option String := none
  reactionsEnabled : String := "1"
  emitMetadata : String := "0"
  inputPosition : String := "bottom"
  theme : String := "light"
  lang : String := "en"
  loading : String := "eager"
  id : String := ""
  deriving Repr, DecidableEq

/-- Read-only page metadata the widget consults: `location.href`
(as `url`), the global `origin`, `location.pathname`, `document.title`,
and the resolved contents of the `og:title` / `og:description` meta tags
(`""` when the tag is absent, as `_getOgMetaContent` returns). -/
structure Page where
  url : PageUrl
  origin : String
  pathname : String
  title : String := ""
  ogTitle : String := ""
  ogDescription : String := ""
  deriving Repr, DecidableEq

/-- The trusted remote origin (`GISCUS_ORIGIN`). -/
def GISCUS_ORIGIN : String := "https://giscus.app"

/-- `ERROR_SUGGESTION` from the source. -/
def ERROR_SUGGESTION : String :=
  "Please consider reporting this error at https://github.com/giscus/giscus/issues/new."

/-- `_formatError(message)`. -/
def formatError (message : String) : String :=
  "[giscus] An error occurred. Error message: \"" ++ message ++ "\"."

/-! ### Term resolver -/

/-- Is `c` a JavaScript regex word character (`\w`, ASCII)? -/
def isWordChar (c : Char) : Bool :=
  ('a' ≤ c && c ≤ 'z') || ('A' ≤ c && c ≤ 'Z') || ('0' ≤ c && c ≤ '9') || c = '_'

/-- `s.replace(/\.\w+$/, '')`: remove a final `.`‑plus‑word‑characters
suffix when one exists (the match must reach the end of the string). -/
def stripTrailingExt (s : String) : String :=
  let r := s.toList.reverse
  let ext := r.takeWhile isWordChar
  if ext.isEmpty then s
  else
    match r.drop ext.length with
    | '.' :: rest => String.mk rest.reverse
    | _ => s

/-- The `pathname` arm of `getTerm`: `location.pathname.length < 2 ?
'index' : location.pathname.substring(1).replace(/\.\w+$/, '')`. -/
def pathnameTerm (p : String) : String :=
  if p.length < 2 then "index" else stripTrailingExt (p.drop 1)

/-- `getTerm()`. Note that in the `'url'` case the source returns the bare
identifier `origin`, which resolves to the global `window.origin`
(scheme + host), not the cleaned page address. `none` for `mapping` models
the property being unset, which falls into the `default` arm. -/
def getTerm (cfg : Config) (page : Page) : String :=
  match cfg.mapping with
  | some .url => page.origin
  | some .title => page.title
  | some .ogTitle => page.ogTitle
  | some .specific => cfg.term.getD ""
  | some .number => ""
  | some .pathname => pathnameTerm page.pathname
  | none => pathnameTerm page.pathname

/-- `getNumber()`: `(this.mapping === 'number' && this.term) || ''`. -/
def getNumber (cfg : Config) : String :=
  if cfg.mapping = some .number then cfg.term.getD "" else ""

/-! ### Address builder -/

/-- The query parameters of the iframe address, in the source's insertion
order, over the cleaned page address, element fragment, session token and
configuration; missing optional fields become `''` via `|| ''`. -/
def iframeParams (cfg : Config) (page : Page) (session : String) : List (String × String) :=
  let url := urlDeleteParam page.url "giscus"
  let origin := urlToString url ++ (if ¬(cfg.id = "") then "#" ++ cfg.id else "")
  let description := page.ogDescription
  [("origin", origin),
   ("session", session),
   ("repo", cfg.repo),
   ("repoId", cfg.repoId.getD ""),
   ("category", cfg.category.getD ""),
   ("categoryId", cfg.categoryId.getD ""),
   ("term", getTerm cfg page),
   ("number", getNumber cfg),
   ("reactionsEnabled", cfg.reactionsEnabled),
   ("emitMetadata", cfg.emitMetadata),
   ("inputPosition", cfg.inputPosition),
   ("theme", cfg.theme),
   ("description", description)]

/-- `getIframeSrc()`: remote origin, optional `/{lang}` locale segment,
`/widget`, and the serialized query parameters. -/
def getIframeSrc (cfg : Config) (page : Page) (session : String) : String :=
  let locale := if ¬(cfg.lang = "") then "/" ++ cfg.lang else ""
  GISCUS_ORIGIN ++ locale ++ "/widget?" ++ formUrlEncode (iframeParams cfg page session)

/-! ### JSON (the parts `setupSession` uses) -/

/-- JSON values. Numbers are kept exactly as mantissa × 10^exp10. -/
inductive JsonValue
  | null
  | bool (b : Bool)
  | num (mantissa : Int) (exp10 : Int)
  | str (s : String)
  | arr (xs : List JsonValue)
  | obj (fields : List (String × JsonValue))

/-- Escape one character for a JSON string literal, as `JSON.stringify`
does: quote, backslash and control characters are escaped, everything
else is kept verbatim. -/
def jsonEscapeChar (c : Char) : String :=
  if c = '"' then "\\\""
  else if c = '\\' then "\\\\"
  else if c = '\x08' then "\\b"
  else if c = '\x09' then "\\t"
  else if c = '\x0a' then "\\n"
  else if c = '\x0c' then "\\f"
  else if c = '\x0d' then "\\r"
  else if c.toNat < 0x20 then
    "\\u00" ++ String.mk [hexDigit (c.toNat / 16), hexDigit (c.toNat % 16)]
  else String.singleton c

/-- `JSON.stringify` of a string value. -/
def jsonStringify (s : String) : String :=
  "\"" ++ String.join (s.toList.map jsonEscapeChar) ++ "\""

/-- JSON insignificant whitespace. -/
def isJsonWs (c : Char) : Bool :=
  c = ' ' || c = '\t' || c = '\n' || c = '\r'

/-- Drop leading JSON whitespace. -/
def skipWs (cs : List Char) : List Char :=
  cs.dropWhile isJsonWs

/-- Is `c` an ASCII digit? -/
def isDigitChar (c : Char) : Bool :=
  '0' ≤ c && c ≤ '9'

/-- Numeric value of a digit list. -/
def digitsToNat (ds : List Char) : Nat :=
  ds.foldl (fun acc c => 10 * acc + (c.toNat - 48)) 0

/-- Value of a hex digit character, if it is one. -/
def hexVal (c : Char) : Option Nat :=
  let n := c.toNat
  if 48 ≤ n ∧ n ≤ 57 then some (n - 48)
  else if 97 ≤ n ∧ n ≤ 102 then some (n - 87)
  else if 65 ≤ n ∧ n ≤ 70 then some (n - 55)
  else none

/-- The character named by a single-letter JSON escape, if any. -/
def escapedChar (e : Char) : Option Char :=
  match e with
  | '"' => some '"'
  | '\\' => some '\\'
  | '/' => some '/'
  | 'b' => some '\x08'
  | 'f' => some '\x0c'
  | 'n' => some '\x0a'
  | 'r' => some '\x0d'
  | 't' => some '\x09'
  | _ => none

/-- Parse the body of a JSON string literal (after the opening quote),
returning the decoded string and the rest after the closing quote. -/
def parseStringBody : List Char → Option (String × List Char)
  | [] => none
  | '"' :: rest => some ("", rest)
  | '\\' :: 'u' :: h1 :: h2 :: h3 :: h4 :: rest => do
    let code ← [h1, h2, h3, h4].foldlM (fun acc hc => (hexVal hc).map (16 * acc + ·)) 0
    let (s, r) ← parseStringBody rest
    return (String.singleton (Char.ofNat code) ++ s, r)
  | '\\' :: e :: rest => do
    let c ← escapedChar e
    let (s, r) ← parseStringBody rest
    return (String.singleton c ++ s, r)
  | c :: rest =>
    if c.toNat < 0x20 then none
    else do
      let (s, r) ← parseStringBody rest
      return (String.singleton c ++ s, r)

/-- Parse a JSON number at the head of `cs` (grammar
`-? (0 | [1-9][0-9]*) (\.[0-9]+)? ([eE][+-]?[0-9]+)?`). -/
def parseNumber (cs : List Char) : Option (JsonValue × List Char) :=
  let neg := cs.head? = some '-'
  let cs1 := if neg then cs.tail else cs
  let ds := cs1.takeWhile isDigitChar
  let cs2 := cs1.dropWhile isDigitChar
  if ds.isEmpty then none
  else if 1 < ds.length && ds.head? = some '0' then none
  else
    let fracStep : Option (List Char × List Char) :=
      match cs2 with
      | '.' :: r =>
        let f := r.takeWhile isDigitChar
        if f.isEmpty then none else some (f, r.dropWhile isDigitChar)
      | _ => some ([], cs2)
    match fracStep with
    | none => none
    | some (fds, cs3) =>
      let expStep : Option (Int × List Char) :=
        match cs3 with
        | 'e' :: r | 'E' :: r =>
          let (esign, r1) :=
            match r with
            | '+' :: r2 => ((1 : Int), r2)
            | '-' :: r2 => ((-1 : Int), r2)
            | _ => ((1 : Int), r)
          let eds := r1.takeWhile isDigitChar
          if eds.isEmpty then none
          else some (esign * (digitsToNat eds : Int), r1.dropWhile isDigitChar)
        | _ => some (0, cs3)
      match expStep with
      | none => none
      | some (e, cs4) =>
        let mant : Int := (digitsToNat ds : Int) * (10 : Int) ^ fds.length + (digitsToNat fds : Int)
        let mant := if neg then -mant else mant
        some (.num mant (e - (fds.length : Int)), cs4)

mutual

/-- Parse a JSON value at the head of the input (fuel-indexed
recursive-descent; the fuel passed by `jsonParse` always suffices). -/
def parseValue : Nat → List Char → Option (JsonValue × List Char)
  | 0, _ => none
  | fuel + 1, cs =>
    match skipWs cs with
    | 'n' :: 'u' :: 'l' :: 'l' :: rest => some (.null, rest)
    | 't' :: 'r' :: 'u' :: 'e' :: rest => some (.bool true, rest)
    | 'f' :: 'a' :: 'l' :: 's' :: 'e' :: rest => some (.bool false, rest)
    | '"' :: rest => (parseStringBody rest).map (fun p => (.str p.1, p.2))
    | '[' :: rest =>
      (match skipWs rest with
       | ']' :: r => some (.arr [], r)
       | _ => (parseArrItems fuel rest).map (fun p => (.arr p.1, p.2)))
    | '{' :: rest =>
      (match skipWs rest with
       | '}' :: r => some (.obj [], r)
       | _ => (parseObjItems fuel rest).map (fun p => (.obj p.1, p.2)))
    | cs' => parseNumber cs'

/-- Parse one-or-more comma-separated array items up to `]`. -/
def parseArrItems : Nat → List Char → Option (List JsonValue × List Char)
  | 0, _ => none
  | fuel + 1, cs => do
    let (v, rest) ← parseValue fuel cs
    match skipWs rest with
    | ',' :: r => do
      let (vs, r') ← parseArrItems fuel r
      return (v :: vs, r')
    | ']' :: r => return ([v], r)
    | _ => none

/-- Parse one-or-more comma-separated object members up to `}`. -/
def parseObjItems : Nat → List Char → Option (List (String × JsonValue) × List Char)
  | 0, _ => none
  | fuel + 1, cs => do
    match skipWs cs with
    | '"' :: rest => do
      let (k, r1) ← parseStringBody rest
      match skipWs r1 with
      | ':' :: r2 => do
        let (v, r3) ← parseValue fuel r2
        match skipWs r3 with
        | ',' :: r4 => do
          let (fs, r5) ← parseObjItems fuel r4
          return ((k, v) :: fs, r5)
        | '}' :: r4 => return ([(k, v)], r4)
        | _ => none
      | _ => none
    | _ => none

end

/-- `JSON.parse`: `none` models a thrown `SyntaxError`. -/
def jsonParse (s : String) : Option JsonValue :=
  match parseValue (2 * s.length + 4) s.toList with
  | some (v, rest) => if (skipWs rest).isEmpty then some v else none
  | none => none

/-- A JavaScript-style number-to-string rendering for the exact decimal
`m × 10^e` (approximate for exponents the source never produces; only
reached when a non-string JSON value was stored under the session key). -/
def jsNumToString (m : Int) (e : Int) : String :=
  if e = 0 then toString m
  else if 0 ≤ e then toString (m * (10 : Int) ^ e.toNat)
  else toString m ++ "e" ++ toString e

/-- `this.__session = JSON.parse(saved) || ''` lands a JSON value in a
string-typed field; this models the resulting string, with JavaScript
falsiness (`null`, `false`, `0`, `""`) collapsing to `''`. -/
def jsValueOrEmptyString : JsonValue → String
  | .null => ""
  | .bool b => if b then "true" else ""
  | .num m e => if m = 0 then "" else jsNumToString m e
  | .str s => s
  | .arr _ => ""
  | .obj _ => "[object Object]"

/-! ### Session setup -/

/-- The outcome of `setupSession()`: the active token, the value of the
`giscus-session` storage key afterwards, the (possibly rewritten) page,
and whether `console.warn` fired for a decode failure. -/
structure SessionResult where
  session : String
  storage : Option String
  page : Page
  warned : Bool
  deriving Repr, DecidableEq

/-- `setupSession()`. `storage` is the prior value of
`localStorage['giscus-session']` (`none` = key absent). A `giscus` URL
parameter, when truthy, is persisted JSON-encoded, becomes the active
token, and is stripped from the visible address via
`history.replaceState`; otherwise a truthy stored value is JSON-decoded,
a decode failure clearing the token and removing the key with a warning. -/
def setupSession (storage : Option String) (page : Page) : SessionResult :=
  let savedSession := storage
  let urlSession := (urlGetParam page.url "giscus").getD ""
  if ¬(urlSession = "") then
    { session := urlSession
      storage := some (jsonStringify urlSession)
      page := { page with url := urlDeleteParam page.url "giscus" }
      warned := false }
  else
    match savedSession with
    | none => { session := "", storage := storage, page := page, warned := false }
    | some s =>
      if s = "" then
        { session := "", storage := storage, page := page, warned := false }
      else
        match jsonParse s with
        | some v =>
          { session := jsValueOrEmptyString v, storage := storage, page := page, warned := false }
        | none =>
          { session := "", storage := none, page := page, warned := true }

/-! ### Message events and the host state machine -/

/-- The `giscus`-tagged payload of an inbound message. `resizeHeight = 0`
models an absent or zero (falsy) height; `error = ""` models an absent or
empty (falsy) error string. Other metadata fields are unused here. -/
structure GiscusPayload where
  resizeHeight : Nat := 0
  error : String := ""
  deriving Repr, DecidableEq

/-- `event.data` as the handler's guard sees it: either not an object
(`typeof data !== 'object'`), or an object whose `giscus` field is
`none` (absent/falsy) or carries a payload. -/
inductive MessageData
  | nonObject
  | object (giscus : Option GiscusPayload)
  deriving Repr, DecidableEq

/-- An inbound `message` event: its origin and data. -/
structure MsgEvent where
  origin : String
  data : MessageData
  deriving Repr, DecidableEq

/-- The `giscus` payload of a message, when the guard
`typeof data === 'object' && data.giscus` passes. -/
def taggedPayload : MessageData → Option GiscusPayload
  | .object (some g) => some g
  | _ => none

/-- The widget's mutable state: active token, the `giscus-session`
storage key, configuration, page, Lit's `hasUpdated` flag, whether the
iframe ref is populated, the iframe's CSS height, and its `src`. -/
structure WidgetState where
  session : String
  storage : Option String
  config : Config
  page : Page
  hasUpdated : Bool
  iframeAttached : Bool
  frameHeight : Option String := none
  frameSrc : Option String := none
  deriving Repr, DecidableEq

/-- The `setConfig` message body built by `updateConfig()`. `number` is
the `+this.getNumber()` coercion (`none` models `NaN`). -/
structure SetConfigPayload where
  repo : String
  repoId : Option String
  category : Option String
  categoryId : Option String
  term : String
  number : Option Int
  reactionsEnabled : Bool
  emitMetadata : Bool
  inputPosition : String
  theme : String
  lang : String
  deriving Repr, DecidableEq

/-- Observable actions of the widget. `attachFrame` is the first render
creating the iframe; `recreateFrame` is the `this.update(new Map())`
re-render after session invalidation; `postMessage` is
`sendMessage({setConfig})` to the iframe's window (targeted at
`GISCUS_ORIGIN`). -/
inductive Effect
  | warnLog (msg : String)
  | errorLog (msg : String)
  | attachFrame (src : String)
  | recreateFrame (src : String)
  | postMessage (setConfig : SetConfigPayload)
  deriving Repr, DecidableEq

/-- The tail of the error handling shared by every non-returning path:
the `Discussion not found` informational warning, else the generic
unrecoverable-error log. -/
def errorTail (message : String) : List Effect :=
  if strContains message "Discussion not found" then
    [.warnLog ("[giscus] " ++ message ++ ". A new discussion will be created if a comment/reaction is submitted.")]
  else
    [.errorLog (formatError message ++ " " ++ ERROR_SUGGESTION)]

/-- The body of `handleMessageEvent` once the origin filter and the
`giscus`-tag guard have passed: height resize, error classification,
session invalidation (with the iframe reloaded at a freshly computed
address), and the fall-through logging when no session was stored. -/
def handleTagged (s : WidgetState) (g : GiscusPayload) : WidgetState × List Effect :=
  let s :=
    if s.iframeAttached = true ∧ ¬(g.resizeHeight = 0) then
      { s with frameHeight := some (toString g.resizeHeight ++ "px") }
    else s
  if g.error = "" then (s, [])
  else
    let message := g.error
    if (strContains message "Bad credentials" || strContains message "Invalid state value") = true then
      if s.storage.isSome = true then
        let s := { s with storage := none, session := "" }
        let src := getIframeSrc s.config s.page s.session
        ({ s with frameSrc := some src },
         [.warnLog (formatError message ++ " Session has been cleared."),
          .recreateFrame src])
      else
        (s, .errorLog (formatError message ++ " No session is stored initially. " ++ ERROR_SUGGESTION)
              :: errorTail message)
    else
      (s, errorTail message)

/-- `handleMessageEvent(event)`. Returns the successor state and the
emitted effects, mirroring the source's early returns: origin filter and
`giscus`-tag guard, then `handleTagged` for the rest of the handler. -/
def handleMessageEvent (s : WidgetState) (ev : MsgEvent) : WidgetState × List Effect :=
  if ¬(ev.origin = GISCUS_ORIGIN) then (s, [])
  else
    match taggedPayload ev.data with
    | none => (s, [])
    | some g => handleTagged s g

/-- JavaScript unary `+` on a string, for the strings `getNumber` can
produce: empty gives `0`, a (signed) decimal integer parses, anything
else is `NaN` (`none`). -/
def jsUnaryPlus (s : String) : Option Int :=
  if s = "" then some 0 else s.toInt?

/-- `updateConfig()`: the envelope posted to the iframe. -/
def updateConfig (cfg : Config) (page : Page) : SetConfigPayload :=
  { repo := cfg.repo
    repoId := cfg.repoId
    category := cfg.category
    categoryId := cfg.categoryId
    term := getTerm cfg page
    number := jsUnaryPlus (getNumber cfg)
    reactionsEnabled := cfg.reactionsEnabled = "1"
    emitMetadata := cfg.emitMetadata = "1"
    inputPosition := cfg.inputPosition
    theme := cfg.theme
    lang := cfg.lang }

/-- Events driving the host element: a reactive property change (which
lands in the overridden `requestUpdate`) or an inbound window message. -/
inductive HostEvent
  | propertyChange (cfg : Config)
  | message (ev : MsgEvent)
  deriving Repr, DecidableEq

/-- One step of the host element. A property change before the first
update renders the iframe at the freshly built address (Unattached →
Attached); afterwards `requestUpdate` only sends the `setConfig`
message. Message events go to `handleMessageEvent`. -/
def step (s : WidgetState) (e : HostEvent) : WidgetState × List Effect :=
  match e with
  | .propertyChange cfg =>
    let s := { s with config := cfg }
    if s.hasUpdated = false then
      let src := getIframeSrc s.config s.page s.session
      ({ s with hasUpdated := true, iframeAttached := true, frameSrc := some src },
       [.attachFrame src])
    else
      (s, [.postMessage (updateConfig s.config s.page)])
  | .message ev => handleMessageEvent s ev

/-- Is the effect a console log (warning or error), as opposed to a
frame attach/reload or an outbound message? -/
def isLogEffect : Effect → Prop
  | .warnLog _ => True
  | .errorLog _ => True
  | .attachFrame _ => False
  | .recreateFrame _ => False
  | .postMessage _ => False

/-! ### Concrete fixtures used by witnesses and counterexamples -/

/-- A page at `https://example.com/posts/a?giscus=TOK`. -/
def examplePage : Page :=
  { url := { base := "https://example.com/posts/a", params := [("giscus", "TOK")] }
    origin := "https://example.com"
    pathname := "/posts/a.html" }

/-- The same page with no query parameters. -/
def plainPage : Page :=
  { url := { base := "https://example.com/posts/a", params := [] }
    origin := "https://example.com"
    pathname := "/posts/a.html" }

/-- The address-builder example configuration from the specification:
`{repo: "a/b", theme: "dark", lang: "fr"}`, with a `specific` mapping and
no term so that every optional parameter is unset. -/
def exampleConfig : Config :=
  { repo := "a/b", theme := "dark", lang := "fr", mapping := some .specific }

/-- A widget state holding a stored session, attached and updated. -/
def exampleState : WidgetState :=
  { session := "TOK"
    storage := some "\"TOK\""
    config := exampleConfig
    page := plainPage
    hasUpdated := true
    iframeAttached := true }

/-- A trusted-origin `Bad credentials` message event. -/
def badCredsEvent : MsgEvent :=
  { origin := GISCUS_ORIGIN
    data := .object (some { error := "Bad credentials (HTTP 401)" }) }

/-- Does the event trigger the session-invalidation path in state `s`
(trusted origin, tagged payload, authentication-failure error, stored
token present)? -/
def isAuthInvalidation (s : WidgetState) (e : HostEvent) : Prop :=
  ∃ ev g, e = .message ev ∧ ev.origin = GISCUS_ORIGIN ∧ taggedPayload ev.data = some g ∧
    (strContains g.error "Bad credentials" || strContains g.error "Invalid state value") = true ∧
    s.storage.isSome = true

/-! ## Helper lemmas -/

/-- After deleting a key, looking it up yields nothing. -/
theorem urlGetParam_urlDeleteParam (u : PageUrl) (k : String) :
    urlGetParam (urlDeleteParam u k) k = none := by
  simp only [urlGetParam, urlDeleteParam, Option.map_eq_none', List.find?_eq_none,
    List.mem_filter, decide_eq_true_eq]
  intro p hp
  simpa using hp.2

/-- A trusted-origin, `giscus`-tagged event reduces the handler to its
post-guard body. -/
theorem handleMessageEvent_tagged (s : WidgetState) (ev : MsgEvent) (g : GiscusPayload)
    (horig : ev.origin = GISCUS_ORIGIN) (htag : taggedPayload ev.data = some g) :
    handleMessageEvent s ev = handleTagged s g := by
  unfold handleMessageEvent
  rw [horig]
  simp [htag]

/-! ## Claim theorems -/

/-- C8: the term resolver is deterministic (a pure function of the
configuration and page metadata) in every mapping mode; in `pathname`
mode — which is also the fallback when no mapping is set — any pathname
shorter than 2 characters yields the literal `index`, otherwise the
leading slash is dropped and a trailing file extension is stripped;
concretely `/` yields `index` and `/posts/a.html` yields `posts/a`. -/
theorem pathname_term_resolution :
    (∀ cfg cfg' page page', cfg = cfg' → page = page' →
      getTerm cfg page = getTerm cfg' page') ∧
    (∀ cfg page, (cfg.mapping = none ∨ cfg.mapping = some .pathname) →
      getTerm cfg page = pathnameTerm page.pathname) ∧
    (∀ p, p.length < 2 → pathnameTerm p = "index") ∧
    (∀ p, ¬ p.length < 2 → pathnameTerm p = stripTrailingExt (p.drop 1)) ∧
    pathnameTerm "/" = "index" ∧ pathnameTerm "/posts/a.html" = "posts/a" := by
  refine ⟨?_, ?_, ?_, ?_, by decide, by decide⟩
  · intro cfg cfg' page page' h1 h2
    rw [h1, h2]
  · intro cfg page h
    rcases h with h | h <;> simp [getTerm, h]
  · intro p h
    simp [pathnameTerm, h]
  · intro p h
    simp [pathnameTerm, h]

/-- C8 witness: the general parts instantiated at the root path and at a
concrete page whose pathname is `/posts/a.html`. -/
theorem pathname_term_resolution_witness :
    pathnameTerm "/" = "index" ∧
    getTerm { repo := "a/b" } examplePage = pathnameTerm "/posts/a.html" := by
  constructor
  · exact pathname_term_resolution.2.2.1 "/" (by decide)
  · exact pathname_term_resolution.2.1 { repo := "a/b" } examplePage (Or.inl rfl)

/-- C1: in `url` mapping mode `getTerm` returns the bare global `origin`
(`window.origin`, scheme + host only), not the page's canonical address
with the `giscus` session parameter stripped: on the page
`https://example.com/posts/a?giscus=TOK` it produces
`https://example.com`, while the cleaned page address is
`https://example.com/posts/a`. -/
theorem url_mapping_term_is_window_origin :
    getTerm { repo := "a/b", mapping := some .url } examplePage = "https://example.com" ∧
    urlToString (urlDeleteParam examplePage.url "giscus") = "https://example.com/posts/a" ∧
    ¬ getTerm { repo := "a/b", mapping := some .url } examplePage =
        urlToString (urlDeleteParam examplePage.url "giscus") := by
  refine ⟨rfl, ?_, ?_⟩ <;> decide

/-- C4: when the page address carries a (non-empty) `giscus=XYZ` query
parameter, `setupSession` makes `XYZ` the active token, stores the
JSON-encoded string under `giscus-session` (overwriting whatever was
stored before, for any prior storage contents), and the rewritten visible
address no longer contains a `giscus` parameter. -/
theorem session_url_seeding (storage : Option String) (page : Page) (v : String)
    (hget : urlGetParam page.url "giscus" = some v) (hne : ¬ v = "") :
    (setupSession storage page).session = v ∧
    (setupSession storage page).storage = some (jsonStringify v) ∧
    urlGetParam (setupSession storage page).page.url "giscus" = none := by
  have h := urlGetParam_urlDeleteParam page.url "giscus"
  unfold setupSession
  simp [hget, hne, h]

/-- C4 witness: on `https://example.com/posts/a?giscus=TOK` with an old
stored token, seeding yields token `TOK`, storage `"TOK"`, and a
`giscus`-free address. -/
theorem session_url_seeding_witness :
    (setupSession (some "\"OLD\"") examplePage).session = "TOK" ∧
    (setupSession (some "\"OLD\"") examplePage).storage = some (jsonStringify "TOK") ∧
    urlGetParam (setupSession (some "\"OLD\"") examplePage).page.url "giscus" = none :=
  session_url_seeding (some "\"OLD\"") examplePage "TOK" (by decide) (by decide)

/-- C7 counterexample: the empty string stored under `giscus-session` is
not valid JSON (`jsonParse "" = none`, as `JSON.parse('')` throws), yet
`setupSession` leaves the key in place — `if (savedSession)` is falsy for
`''`, so the decode is never attempted, the key is not removed and no
warning is logged. The claim's "storage key removed" fails here. -/
theorem empty_stored_session_key_survives :
    jsonParse "" = none ∧
    (setupSession (some "") plainPage).storage = some "" ∧
    ¬ (setupSession (some "") plainPage).storage = none ∧
    (setupSession (some "") plainPage).session = "" ∧
    (setupSession (some "") plainPage).warned = false := by
  refine ⟨rfl, rfl, ?_, rfl, rfl⟩
  intro h
  rw [show (setupSession (some "") plainPage).storage = some "" from rfl] at h
  exact Option.noConfusion h

/-- C7 (amended): for every non-empty stored value that is not valid
JSON, and no URL-seeded session, `setupSession` ends with an empty active
token, the `giscus-session` key removed, and a warning logged; the decode
failure is absorbed (the embedding is a total function — nothing is
thrown). The empty stored value is the one exception: it is skipped
before decoding, leaving the key in place. -/
theorem invalid_json_storage_selfheals (storage : String) (page : Page)
    (hurl : urlGetParam page.url "giscus" = none)
    (hne : ¬ storage = "") (hbad : jsonParse storage = none) :
    (setupSession (some storage) page).session = "" ∧
    (setupSession (some storage) page).storage = none ∧
    (setupSession (some storage) page).warned = true := by
  unfold setupSession
  simp [hurl, hne, hbad]

/-- C7 witness: the stored value `junk` is rejected by the JSON parser
and the session store self-heals. -/
theorem invalid_json_storage_selfheals_witness :
    (setupSession (some "junk") plainPage).session = "" ∧
    (setupSession (some "junk") plainPage).storage = none ∧
    (setupSession (some "junk") plainPage).warned = true :=
  invalid_json_storage_selfheals "junk" plainPage rfl (by decide) rfl

/-- C5: for every configuration, page and session, the iframe address is
the remote origin, a `/{lang}` segment exactly when a language is
configured, then `/widget` and the percent-encoded serialization of the
query parameters, whose keys appear in the fixed insertion order
`origin, session, repo, repoId, category, categoryId, term, number,
reactionsEnabled, emitMetadata, inputPosition, theme, description`; every
unset optional field is carried as the empty string rather than being
omitted (shown per slot for `session`, `repoId`, `category`,
`categoryId`, `term`, `number` and `description`). -/
theorem iframe_src_construction (cfg : Config) (page : Page) (session : String) :
    getIframeSrc cfg page session =
      GISCUS_ORIGIN ++ (if cfg.lang = "" then "" else "/" ++ cfg.lang) ++ "/widget?" ++
        formUrlEncode (iframeParams cfg page session) ∧
    (iframeParams cfg page session).map Prod.fst =
      ["origin", "session", "repo", "repoId", "category", "categoryId", "term", "number",
       "reactionsEnabled", "emitMetadata", "inputPosition", "theme", "description"] ∧
    (session = "" → (iframeParams cfg page session)[1]? = some ("session", "")) ∧
    (cfg.repoId = none → (iframeParams cfg page session)[3]? = some ("repoId", "")) ∧
    (cfg.category = none → (iframeParams cfg page session)[4]? = some ("category", "")) ∧
    (cfg.categoryId = none → (iframeParams cfg page session)[5]? = some ("categoryId", "")) ∧
    (cfg.mapping = some .specific → cfg.term = none →
      (iframeParams cfg page session)[6]? = some ("term", "")) ∧
    (¬ cfg.mapping = some .number → (iframeParams cfg page session)[7]? = some ("number", "")) ∧
    (page.ogDescription = "" → (iframeParams cfg page session)[12]? = some ("description", "")) := by
  refine ⟨?_, rfl, ?_, ?_, ?_, ?_, ?_, ?_, ?_⟩
  · by_cases h : cfg.lang = "" <;> simp [getIframeSrc, h]
  · intro h; simp [iframeParams, h]
  · intro h; simp [iframeParams, h]
  · intro h; simp [iframeParams, h]
  · intro h; simp [iframeParams, h]
  · intro h1 h2; simp [iframeParams, getTerm, h1, h2]
  · intro h; simp [iframeParams, getNumber, h]
  · intro h; simp [iframeParams, h]

set_option maxRecDepth 100000 in
/-- C5 witness: the specification's example configuration
`{repo: "a/b", theme: "dark", lang: "fr"}` (with a `specific` mapping and
no term, so every optional field is unset) on a bare page produces the
`/fr/widget` address with `repo=a%2Fb`, `theme=dark` and all optional
parameters present as empty strings. -/
theorem iframe_src_construction_witness :
    getIframeSrc exampleConfig plainPage "" =
      GISCUS_ORIGIN ++ "/fr" ++ "/widget?" ++ formUrlEncode (iframeParams exampleConfig plainPage "") ∧
    (iframeParams exampleConfig plainPage "")[3]? = some ("repoId", "") ∧
    (iframeParams exampleConfig plainPage "")[6]? = some ("term", "") ∧
    (iframeParams exampleConfig plainPage "")[7]? = some ("number", "") ∧
    getIframeSrc exampleConfig plainPage "" =
      "https://giscus.app/fr/widget?origin=https%3A%2F%2Fexample.com%2Fposts%2Fa&session=&repo=a%2Fb&repoId=&category=&categoryId=&term=&number=&reactionsEnabled=1&emitMetadata=0&inputPosition=bottom&theme=dark&description=" := by
  obtain ⟨h1, _, _, h4, _, _, h7, h8, _⟩ :=
    iframe_src_construction exampleConfig plainPage ""
  exact ⟨h1, h4 rfl, h7 rfl rfl, h8 (by decide), by decide⟩

/-- Everything `errorTail` emits is a console log. -/
theorem errorTail_only_logs (message : String) : ∀ e ∈ errorTail message, isLogEffect e := by
  intro e he
  unfold errorTail at he
  split at he <;> simp_all [isLogEffect]

/-- C6: an inbound message from an origin other than `https://giscus.app`,
or whose data is not an object carrying a (truthy) `giscus` tag, leaves
the handler's state — active token, stored token, frame height — exactly
unchanged and emits no effect (in particular, nothing is logged). -/
theorem untrusted_or_untagged_message_ignored (s : WidgetState) (ev : MsgEvent)
    (h : ¬ ev.origin = GISCUS_ORIGIN ∨ taggedPayload ev.data = none) :
    handleMessageEvent s ev = (s, []) := by
  unfold handleMessageEvent
  rcases h with h | h
  · simp [h]
  · by_cases h1 : ev.origin = GISCUS_ORIGIN <;> simp [h1, h]

/-- C6 witness: a tagged resize message from an untrusted origin is
ignored outright. -/
theorem untrusted_or_untagged_message_ignored_witness :
    handleMessageEvent exampleState
        { origin := "https://evil.example", data := .object (some { resizeHeight := 100 }) } =
      (exampleState, []) :=
  untrusted_or_untagged_message_ignored exampleState
    { origin := "https://evil.example", data := .object (some { resizeHeight := 100 }) }
    (Or.inl (by decide))

/-- C9: for a trusted, tagged message, the frame height is left untouched
whenever the iframe reference is absent or `resizeHeight` is falsy (zero
or missing), and is set to `"{resizeHeight}px"` exactly when both the
iframe reference and a non-zero `resizeHeight` are present. -/
theorem resize_height_guard (s : WidgetState) (ev : MsgEvent) (g : GiscusPayload)
    (horig : ev.origin = GISCUS_ORIGIN) (htag : taggedPayload ev.data = some g) :
    ((s.iframeAttached = false ∨ g.resizeHeight = 0) →
      (handleMessageEvent s ev).1.frameHeight = s.frameHeight) ∧
    (s.iframeAttached = true → ¬ g.resizeHeight = 0 →
      (handleMessageEvent s ev).1.frameHeight = some (toString g.resizeHeight ++ "px")) := by
  rw [handleMessageEvent_tagged s ev g horig htag]
  constructor
  · intro hcond
    have hr : ¬ (s.iframeAttached = true ∧ ¬ g.resizeHeight = 0) := by
      rcases hcond with h | h
      · intro hc
        rw [h] at hc
        exact Bool.noConfusion hc.1
      · intro hc
        exact hc.2 h
    unfold handleTagged
    rw [if_neg hr]
    by_cases he : g.error = ""
    · simp [he]
    · rw [if_neg he]
      by_cases ha :
          (strContains g.error "Bad credentials" || strContains g.error "Invalid state value") = true
      · rw [if_pos ha]
        by_cases hs2 : s.storage.isSome = true
        · rw [if_pos hs2]
        · rw [if_neg hs2]
      · rw [if_neg ha]
  · intro hatt hnz
    have hr : s.iframeAttached = true ∧ ¬ g.resizeHeight = 0 := ⟨hatt, hnz⟩
    unfold handleTagged
    rw [if_pos hr]
    by_cases he : g.error = ""
    · simp [he]
    · rw [if_neg he]
      by_cases ha :
          (strContains g.error "Bad credentials" || strContains g.error "Invalid state value") = true
      · rw [if_pos ha]
        by_cases hs2 : s.storage.isSome = true
        · rw [if_pos hs2]
        · rw [if_neg hs2]
      · rw [if_neg ha]

/-- C9 witness: a trusted resize message of 100 pixels with the iframe
attached sets the height to `100px`; the same message with `resizeHeight`
zero leaves it unchanged. -/
theorem resize_height_guard_witness :
    (handleMessageEvent exampleState
        { origin := GISCUS_ORIGIN, data := .object (some { resizeHeight := 100 }) }).1.frameHeight =
      some "100px" ∧
    (handleMessageEvent exampleState
        { origin := GISCUS_ORIGIN, data := .object (some { resizeHeight := 0 }) }).1.frameHeight =
      exampleState.frameHeight := by
  constructor
  · exact (resize_height_guard exampleState
      { origin := GISCUS_ORIGIN, data := .object (some { resizeHeight := 100 }) }
      { resizeHeight := 100 } rfl rfl).2 rfl (by decide)
  · exact (resize_height_guard exampleState
      { origin := GISCUS_ORIGIN, data := .object (some { resizeHeight := 0 }) }
      { resizeHeight := 0 } rfl rfl).1 (Or.inr rfl)

/-- C2: for a trusted, tagged message whose error contains
`Bad credentials` or `Invalid state value`: when the `giscus-session`
storage key exists, the handler removes it, clears the active token, and
emits a warning followed by a frame recreation at the freshly computed
address whose session token is empty (its `session` query parameter is
the empty string); when no stored token exists, active token and storage
are left untouched and every emitted effect is a console log. -/
theorem auth_error_invalidation (s : WidgetState) (ev : MsgEvent) (g : GiscusPayload)
    (horig : ev.origin = GISCUS_ORIGIN) (htag : taggedPayload ev.data = some g)
    (herr : (strContains g.error "Bad credentials" ||
             strContains g.error "Invalid state value") = true) :
    (s.storage.isSome = true →
      (handleMessageEvent s ev).1.session = "" ∧
      (handleMessageEvent s ev).1.storage = none ∧
      (handleMessageEvent s ev).1.frameSrc = some (getIframeSrc s.config s.page "") ∧
      (handleMessageEvent s ev).2 =
        [Effect.warnLog (formatError g.error ++ " Session has been cleared."),
         Effect.recreateFrame (getIframeSrc s.config s.page "")] ∧
      (iframeParams s.config s.page "")[1]? = some ("session", "")) ∧
    (s.storage = none →
      (handleMessageEvent s ev).1.session = s.session ∧
      (handleMessageEvent s ev).1.storage = s.storage ∧
      ∀ e ∈ (handleMessageEvent s ev).2, isLogEffect e) := by
  have hne : ¬ g.error = "" := by
    intro h
    rw [h] at herr
    exact absurd herr (by decide)
  rw [handleMessageEvent_tagged s ev g horig htag]
  unfold handleTagged
  constructor
  · intro hsome
    by_cases hr : s.iframeAttached = true ∧ ¬ g.resizeHeight = 0
    · rw [if_pos hr, if_neg hne, if_pos herr, if_pos (by simpa using hsome)]
      refine ⟨rfl, rfl, rfl, rfl, by simp [iframeParams]⟩
    · rw [if_neg hr, if_neg hne, if_pos herr, if_pos hsome]
      refine ⟨rfl, rfl, rfl, rfl, by simp [iframeParams]⟩
  · intro hnone
    have hns : ¬ s.storage.isSome = true := by
      rw [hnone]
      simp
    by_cases hr : s.iframeAttached = true ∧ ¬ g.resizeHeight = 0
    · rw [if_pos hr, if_neg hne, if_pos herr, if_neg (by simpa using hns)]
      refine ⟨rfl, by simp [hnone], ?_⟩
      intro e he
      rcases List.mem_cons.mp he with he | he
      · simp [he, isLogEffect]
      · exact errorTail_only_logs g.error e he
    · rw [if_neg hr, if_neg hne, if_pos herr, if_neg hns]
      refine ⟨rfl, rfl, ?_⟩
      intro e he
      rcases List.mem_cons.mp he with he | he
      · simp [he, isLogEffect]
      · exact errorTail_only_logs g.error e he

/-- C2 witness: a trusted `Bad credentials` message against a state with
a stored token clears the token and storage and recreates the frame at
the session-less address. -/
theorem auth_error_invalidation_witness :
    (handleMessageEvent exampleState badCredsEvent).1.session = "" ∧
    (handleMessageEvent exampleState badCredsEvent).1.storage = none ∧
    (handleMessageEvent exampleState badCredsEvent).2 =
      [Effect.warnLog (formatError "Bad credentials (HTTP 401)" ++ " Session has been cleared."),
       Effect.recreateFrame (getIframeSrc exampleState.config exampleState.page "")] := by
  obtain ⟨h1, h2, _, h4, _⟩ :=
    (auth_error_invalidation exampleState badCredsEvent
      { error := "Bad credentials (HTTP 401)" } rfl rfl (by decide)).1 rfl
  exact ⟨h1, h2, h4⟩

/-- C10: a trusted authentication-failure message (not mentioning
`Discussion not found`) arriving while no `giscus-session` key is stored
does not stop after the no-session error: it falls through the
discussion-not-found check and the same error is logged a second time by
the generic unrecoverable-error path, while token and storage stay
unchanged. -/
theorem no_session_auth_error_double_log (s : WidgetState) (ev : MsgEvent) (g : GiscusPayload)
    (horig : ev.origin = GISCUS_ORIGIN) (htag : taggedPayload ev.data = some g)
    (herr : (strContains g.error "Bad credentials" ||
             strContains g.error "Invalid state value") = true)
    (hnof : strContains g.error "Discussion not found" = false)
    (hnos : s.storage = none) :
    (handleMessageEvent s ev).2 =
      [Effect.errorLog (formatError g.error ++ " No session is stored initially. " ++
         ERROR_SUGGESTION),
       Effect.errorLog (formatError g.error ++ " " ++ ERROR_SUGGESTION)] ∧
    (handleMessageEvent s ev).1.session = s.session ∧
    (handleMessageEvent s ev).1.storage = none := by
  have hne : ¬ g.error = "" := by
    intro h
    rw [h] at herr
    exact absurd herr (by decide)
  have hns : ¬ s.storage.isSome = true := by
    rw [hnos]
    simp
  have htail : errorTail g.error = [Effect.errorLog (formatError g.error ++ " " ++ ERROR_SUGGESTION)] := by
    unfold errorTail
    rw [if_neg (by simp [hnof])]
  rw [handleMessageEvent_tagged s ev g horig htag]
  unfold handleTagged
  by_cases hr : s.iframeAttached = true ∧ ¬ g.resizeHeight = 0
  · rw [if_pos hr, if_neg hne, if_pos herr, if_neg (by simpa using hns)]
    exact ⟨by rw [htail], rfl, by simp [hnos]⟩
  · rw [if_neg hr, if_neg hne, if_pos herr, if_neg hns]
    exact ⟨by rw [htail], rfl, hnos⟩

/-- C10 witness: the concrete `Bad credentials` message against a state
with no stored session produces exactly the two error logs. -/
theorem no_session_auth_error_double_log_witness :
    (handleMessageEvent { exampleState with storage := none } badCredsEvent).2 =
      [Effect.errorLog (formatError "Bad credentials (HTTP 401)" ++
         " No session is stored initially. " ++ ERROR_SUGGESTION),
       Effect.errorLog (formatError "Bad credentials (HTTP 401)" ++ " " ++ ERROR_SUGGESTION)] :=
  (no_session_auth_error_double_log { exampleState with storage := none } badCredsEvent
    { error := "Bad credentials (HTTP 401)" } rfl rfl (by decide) (by decide) rfl).1

/-- C3: once `hasUpdated` holds (the element has rendered), a
configuration change makes `step` return the state with only the
configuration replaced — address (`frameSrc`) untouched, no frame
created or recreated — together with exactly one outbound `setConfig`
message; and across ALL events, a `recreateFrame` effect only ever
arises from the session-invalidation path (trusted origin, tagged
payload, authentication-failure error, stored token present). -/
theorem config_update_after_attach (s : WidgetState) :
    (∀ cfg, s.hasUpdated = true →
      step s (.propertyChange cfg) =
        ({ s with config := cfg }, [.postMessage (updateConfig cfg s.page)])) ∧
    (∀ e src, Effect.recreateFrame src ∈ (step s e).2 → isAuthInvalidation s e) := by
  constructor
  · intro cfg h
    simp [step, h]
  · intro e src hmem
    match e with
    | .propertyChange cfg =>
      simp only [step] at hmem
      split at hmem <;> simp at hmem
    | .message ev =>
      simp only [step] at hmem
      unfold handleMessageEvent at hmem
      split at hmem
      · simp at hmem
      · rename_i horig
        split at hmem
        · simp at hmem
        · rename_i g htag
          simp only [handleTagged] at hmem
          repeat' split at hmem
          all_goals
            first
            | (simp at hmem
               done)
            | (have hl := errorTail_only_logs g.error _ hmem
               simp [isLogEffect] at hl)
            | (rcases List.mem_cons.mp hmem with h | h
               · exact Effect.noConfusion h
               · have hl := errorTail_only_logs g.error _ h
                 simp [isLogEffect] at hl)
            | (refine ⟨ev, g, rfl, ?_, htag, ?_, ?_⟩ <;> simp_all)

/-- C3 witness: in the attached-and-updated example state, a theme
change produces exactly the `setConfig` message and leaves the state
untouched apart from the configuration. -/
theorem config_update_after_attach_witness :
    step exampleState (.propertyChange { exampleConfig with theme := "dark" }) =
      ({ exampleState with config := { exampleConfig with theme := "dark" } },
       [.postMessage (updateConfig { exampleConfig with theme := "dark" } exampleState.page)]) :=
  (config_update_after_attach exampleState).1 { exampleConfig with theme := "dark" } rfl

end Giscus
